import Mathlib

/-!
Verification of the scp-jp-utilities client library.

The development shallowly embeds the Python sources
(`src/scp_jp/wd_idp/main.py`, `src/scp_jp/api/linker.py`,
`src/scp_jp/api/member_management.py`) into Lean: bytes are `Nat`s
below 256, machine words are `Nat`s reduced modulo `2 ^ 32`, Python
exceptions become `Except`, and HTTP traffic is modelled as explicit
request/response values.
-/

/-! ### Generic string helpers -/

/-- Python's `str.rstrip(c)` on the underlying character list: remove every
trailing occurrence of `p`. -/
def rstripList (p : Char) (l : List Char) : List Char :=
  (l.reverse.dropWhile (· = p)).reverse

/-- Python's `str.rstrip(c)` for a single strip character. -/
def rstrip (s : String) (p : Char) : String :=
  ⟨rstripList p s.data⟩

/-! ### UTF-8 encoding (Python `str.encode()`) -/

/-- UTF-8 encoding of a single code point, as a list of bytes. -/
def utf8EncodeChar (c : Char) : List Nat :=
  let n := c.toNat
  if n < 0x80 then [n]
  else if n < 0x800 then [0xC0 ||| (n >>> 6), 0x80 ||| (n &&& 0x3F)]
  else if n < 0x10000 then
    [0xE0 ||| (n >>> 12), 0x80 ||| ((n >>> 6) &&& 0x3F), 0x80 ||| (n &&& 0x3F)]
  else
    [0xF0 ||| (n >>> 18), 0x80 ||| ((n >>> 12) &&& 0x3F),
     0x80 ||| ((n >>> 6) &&& 0x3F), 0x80 ||| (n &&& 0x3F)]

def utf8EncodeList : List Char → List Nat
  | [] => []
  | c :: cs => utf8EncodeChar c ++ utf8EncodeList cs

/-- Python's `str.encode()`: the UTF-8 bytes of a string. -/
def utf8Encode (s : String) : List Nat := utf8EncodeList s.data

/-! ### SHA-256 (`hashlib.sha256`)

Faithful embedding of FIPS 180-4 SHA-256 over byte lists; words are
`Nat`s reduced modulo `2 ^ 32`. -/

def w32 (n : Nat) : Nat := n % 2 ^ 32

def rotr32 (n x : Nat) : Nat := w32 ((x >>> n) ||| (x <<< (32 - n)))

def not32 (x : Nat) : Nat := x ^^^ 0xffffffff

def bsig0 (x : Nat) : Nat := rotr32 2 x ^^^ rotr32 13 x ^^^ rotr32 22 x

def bsig1 (x : Nat) : Nat := rotr32 6 x ^^^ rotr32 11 x ^^^ rotr32 25 x

def ssig0 (x : Nat) : Nat := rotr32 7 x ^^^ rotr32 18 x ^^^ (x >>> 3)

def ssig1 (x : Nat) : Nat := rotr32 17 x ^^^ rotr32 19 x ^^^ (x >>> 10)

def ch32 (x y z : Nat) : Nat := (x &&& y) ^^^ (not32 x &&& z)

def maj32 (x y z : Nat) : Nat := (x &&& y) ^^^ (x &&& z) ^^^ (y &&& z)

/-- The 64 SHA-256 round constants (the fractional parts of the cube
roots of the first 64 primes, scaled to 32 bits), written in decimal. -/
def K256 : List Nat :=
  [1116352408, 1899447441, 3049323471, 3921009573, 961987163, 1508970993,
   2453635748, 2870763221, 3624381080, 310598401, 607225278, 1426881987,
   1925078388, 2162078206, 2614888103, 3248222580, 3835390401, 4022224774,
   264347078, 604807628, 770255983, 1249150122, 1555081692, 1996064986,
   2554220882, 2821834349, 2952996808, 3210313671, 3336571891, 3584528711,
   113926993, 338241895, 666307205, 773529912, 1294757372, 1396182291,
   1695183700, 1986661051, 2177026350, 2456956037, 2730485921, 2820302411,
   3259730800, 3345764771, 3516065817, 3600352804, 4094571909, 275423344,
   430227734, 506948616, 659060556, 883997877, 958139571, 1322822218,
   1537002063, 1747873779, 1955562222, 2024104815, 2227730452, 2361852424,
   2428436474, 2756734187, 3204031479, 3329325298]

/-- Big-endian byte expansion of `n` into `k` bytes. -/
def natToBytesBE : Nat → Nat → List Nat
  | 0, _ => []
  | k + 1, n => natToBytesBE k (n / 256) ++ [n % 256]

/-- SHA-256 message padding: append `0x80`, zero bytes up to 56 mod 64, then
the bit length as an 8-byte big-endian integer. -/
def sha256Pad (msg : List Nat) : List Nat :=
  msg ++ [0x80] ++ List.replicate ((119 - msg.length % 64) % 64) 0 ++
    natToBytesBE 8 (8 * msg.length)

/-- Group bytes into big-endian 32-bit words. -/
def bytesToWords : List Nat → List Nat
  | a :: b :: c :: d :: rest =>
      (a * 2 ^ 24 + b * 2 ^ 16 + c * 2 ^ 8 + d) :: bytesToWords rest
  | _ => []

/-- Split a word list into 16-word blocks. -/
def toBlocks16 : List Nat → List (List Nat)
  | w0 :: w1 :: w2 :: w3 :: w4 :: w5 :: w6 :: w7 ::
    w8 :: w9 :: w10 :: w11 :: w12 :: w13 :: w14 :: w15 :: rest =>
      [w0, w1, w2, w3, w4, w5, w6, w7,
       w8, w9, w10, w11, w12, w13, w14, w15] :: toBlocks16 rest
  | _ => []

/-- One step of the SHA-256 message-schedule extension. -/
def scheduleStep (w : List Nat) : List Nat :=
  let t := w.length
  w ++ [w32 (ssig1 (w.getD (t - 2) 0) + w.getD (t - 7) 0 +
             ssig0 (w.getD (t - 15) 0) + w.getD (t - 16) 0)]

/-- Extend the 16-word block by `fuel` schedule words. -/
def scheduleW (w : List Nat) : Nat → List Nat
  | 0 => w
  | n + 1 => scheduleW (scheduleStep w) n

/-- The eight working variables of the SHA-256 compression function. -/
structure Hash8 where
  a : Nat
  b : Nat
  c : Nat
  d : Nat
  e : Nat
  f : Nat
  g : Nat
  h : Nat
deriving DecidableEq

/-- One SHA-256 compression round with round constant `k` and schedule
word `wt`. -/
def sha256Round (k wt : Nat) (s : Hash8) : Hash8 :=
  let t1 := w32 (s.h + bsig1 s.e + ch32 s.e s.f s.g + k + wt)
  let t2 := w32 (bsig0 s.a + maj32 s.a s.b s.c)
  ⟨w32 (t1 + t2), s.a, s.b, s.c, w32 (s.d + t1), s.e, s.f, s.g⟩

/-- Compress one 16-word block into the running hash state. -/
def compressBlock (s : Hash8) (block : List Nat) : Hash8 :=
  let w := scheduleW block 48
  let r := (K256.zip w).foldl (fun st kw => sha256Round kw.1 kw.2 st) s
  ⟨w32 (s.a + r.a), w32 (s.b + r.b), w32 (s.c + r.c), w32 (s.d + r.d),
   w32 (s.e + r.e), w32 (s.f + r.f), w32 (s.g + r.g), w32 (s.h + r.h)⟩

def wordsToBytes : List Nat → List Nat
  | [] => []
  | w :: rest => natToBytesBE 4 w ++ wordsToBytes rest

/-- SHA-256 digest of a byte list, as the list of 32 digest bytes
(embedding of `hashlib.sha256(...).digest()`). -/
def sha256 (msg : List Nat) : List Nat :=
  let blocks := toBlocks16 (bytesToWords (sha256Pad msg))
  let fin := blocks.foldl compressBlock
    ⟨1779033703, 3144134277, 1013904242, 2773480762,
     1359893119, 2600822924, 528734635, 1541459225⟩
  wordsToBytes [fin.a, fin.b, fin.c, fin.d, fin.e, fin.f, fin.g, fin.h]

/-! ### Base64 with the URL-safe alphabet (`base64.urlsafe_b64encode`) -/

/-- The URL-safe base64 alphabet: the standard alphabet with `+`, `/`
replaced by `-`, `_`. -/
def b64urlAlphabet : List Char :=
  "ABCDEFGHIJKLMNOPQRSTUVWXYZabcdefghijklmnopqrstuvwxyz0123456789-_".data

def b64Char (n : Nat) : Char := b64urlAlphabet.getD n 'A'

/-- URL-safe base64 encoding of a byte list, with `=` padding
(`base64.urlsafe_b64encode(...).decode()`). -/
def b64Chars : List Nat → List Char
  | [] => []
  | [a] => [b64Char (a / 4), b64Char (a % 4 * 16), '=', '=']
  | [a, b] => [b64Char (a / 4), b64Char (a % 4 * 16 + b / 16), b64Char (b % 16 * 4), '=']
  | a :: b :: c :: rest =>
      b64Char (a / 4) :: b64Char (a % 4 * 16 + b / 16) ::
      b64Char (b % 16 * 4 + c / 64) :: b64Char (c % 64) :: b64Chars rest

/-- URL-safe base64 encoding without any padding characters: the same
encoding, but the final group is emitted short instead of `=`-padded. -/
def b64CharsNoPad : List Nat → List Char
  | [] => []
  | [a] => [b64Char (a / 4), b64Char (a % 4 * 16)]
  | [a, b] => [b64Char (a / 4), b64Char (a % 4 * 16 + b / 16), b64Char (b % 16 * 4)]
  | a :: b :: c :: rest =>
      b64Char (a / 4) :: b64Char (a % 4 * 16 + b / 16) ::
      b64Char (b % 16 * 4 + c / 64) :: b64Char (c % 64) :: b64CharsNoPad rest

def urlsafe_b64encode (bs : List Nat) : String := ⟨b64Chars bs⟩

/-- Base64url encoding without padding, as a string. -/
def b64urlNoPad (bs : List Nat) : String := ⟨b64CharsNoPad bs⟩

/-! ### Scalar and JSON values exchanged over HTTP -/

/-- A Python scalar value as it appears in query parameters and JSON
bodies built by the clients. -/
inductive PyVal where
  | s (v : String)
  | i (v : Int)
  | b (v : Bool)
  | null
deriving DecidableEq

/-- The Python type of a scalar value. -/
inductive PyType where
  | int
  | str
  | bool
  | nonetype
deriving DecidableEq

def pyTypeOf : PyVal → PyType
  | .s _ => .str
  | .i _ => .int
  | .b _ => .bool
  | .null => .nonetype

/-- A JSON value in a request or response body: a scalar, a one-level
object, or an array of scalars (the only shapes these clients build). -/
inductive JVal where
  | prim (v : PyVal)
  | obj (fields : List (String × PyVal))
  | arr (vs : List PyVal)
deriving DecidableEq

/-- An outbound HTTP request exactly as assembled by the client code:
method, full URL, query parameters, JSON body, headers, and the timeout
argument explicitly passed to httpx (`none` when the call site passes no
timeout and the library default applies). -/
structure HttpRequest where
  method : String
  url : String
  params : List (String × PyVal) := []
  json : Option (List (String × JVal)) := none
  headers : List (String × String) := []
  timeout : Option Nat := none
deriving DecidableEq

/-- An HTTP response from a collaborator: status code plus the fields of
its JSON object payload. -/
structure HttpResponse where
  status : Nat
  json : List (String × JVal) := []
deriving DecidableEq

/-- httpx's `HTTPStatusError`, carrying the offending status code. -/
structure HTTPStatusError where
  status : Nat
deriving DecidableEq

/-- httpx `Response.is_success`: a 2xx status code. -/
def is_success (status : Nat) : Bool := decide (200 ≤ status ∧ status < 300)

/-- httpx `Response.raise_for_status()`: returns the response when it is
successful (2xx) and raises `HTTPStatusError` for every other status
(informational, redirect, client-error and server-error alike). -/
def raise_for_status (r : HttpResponse) : Except HTTPStatusError HttpResponse :=
  if is_success r.status then .ok r else .error ⟨r.status⟩

/-! ### `src/scp_jp/wd_idp/main.py` -/

/-- `WikidotUserClass` dataclass. -/
structure WikidotUserClass where
  name : String
  unix_name : String
  id : Int
deriving DecidableEq

/-- The configuration held by `WikidotIdPClient.__init__`. -/
structure WikidotIdPClient where
  endpoint : String
  client_id : String
  client_secret : String
  redirect_uri : String
deriving DecidableEq

/-- The `ValueError("invalid code_challenge_method")` raised by
`create_code_challenge`; the spec's error taxonomy calls it
`InvalidMethod`. -/
inductive PkceError where
  | invalidMethod
deriving DecidableEq

/-- `WikidotIdPClient.create_code_challenge`: `plain` returns the
verifier; `S256` hashes the verifier's UTF-8 bytes with SHA-256,
url-safe-base64-encodes the digest and strips trailing `=`; anything
else raises. -/
def create_code_challenge (code_verifier code_challenge_method : String) :
    Except PkceError String :=
  if code_challenge_method = "plain" then
    .ok code_verifier
  else if code_challenge_method = "S256" then
    let code_verifier_hash := sha256 (utf8Encode code_verifier)
    .ok (rstrip (urlsafe_b64encode code_verifier_hash) '=')
  else
    .error .invalidMethod

/-- `WikidotIdPClient.get_authorization_url`: the f-string that builds
the authorization URL. -/
def get_authorization_url (c : WikidotIdPClient)
    (code_challenge_method code_challenge state : String) : String :=
  c.endpoint ++ "/authorize" ++
  "?response_type=code" ++
  "&client_id=" ++ c.client_id ++
  "&redirect_uri=" ++ c.redirect_uri ++
  "&scope=identify" ++
  "&state=" ++ state ++
  "&code_challenge=" ++ code_challenge ++
  "&code_challenge_method=" ++ code_challenge_method

/-- The request issued by `WikidotIdPClient.get_user`: a POST to
`{endpoint}/user` whose JSON body is built inline; note the `httpx.post`
call passes no `timeout` argument. -/
def get_user_request (c : WikidotIdPClient) (code code_verifier : String) :
    HttpRequest :=
  { method := "POST"
    url := c.endpoint ++ "/user"
    json := some
      [("client_id", .prim (.s c.client_id)),
       ("client_secret", .prim (.s c.client_secret)),
       ("code", .prim (.s code)),
       ("code_verifier", .prim (.s code_verifier)),
       ("grant_type", .prim (.s "authorization_code")),
       ("redirect_uri", .prim (.s c.redirect_uri))]
    timeout := none }

/-- Failure of `get_user`: the `raise_for_status` exception, or a payload
from which the three `userinfo[...]` subscripts cannot produce the typed
dataclass fields. -/
inductive GetUserError where
  | httpStatus (e : HTTPStatusError)
  | badPayload
deriving DecidableEq

/-- The response handling of `WikidotIdPClient.get_user`:
`raise_for_status`, then build `WikidotUserClass` from the payload's
`name`, `unix_name` and `id` fields. -/
def get_user_response (r : HttpResponse) : Except GetUserError WikidotUserClass :=
  match raise_for_status r with
  | .error e => .error (.httpStatus e)
  | .ok r =>
    match r.json.lookup "name", r.json.lookup "unix_name", r.json.lookup "id" with
    | some (.prim (.s name)), some (.prim (.s unix_name)), some (.prim (.i id)) =>
        .ok ⟨name, unix_name, id⟩
    | _, _, _ => .error .badPayload

/-! ### `src/scp_jp/api/linker.py` -/

/-- `DiscordAccountSchema`: `id` is declared `str` (the opaque
platform-issued identifier), with `username` and `avatar`. -/
structure DiscordAccountSchema where
  id : String
  username : String
  avatar : String
deriving DecidableEq

/-- The state stored by `LinkerAPIClient.__init__`. -/
structure LinkerAPIClient where
  base_url : String
  api_key : String
  headers : List (String × String)
deriving DecidableEq

/-- `LinkerAPIClient.__init__`: strips trailing `/` from `base_url` and
builds the bearer-token header (`_headers` in the source). -/
def LinkerAPIClient.init (base_url api_key : String) : LinkerAPIClient :=
  { base_url := rstrip base_url '/'
    api_key := api_key
    headers := [("Authorization", "Bearer " ++ api_key)] }

/-- The request assembled by `LinkerAPIClient._make_request`: URL is
`f"{self.base_url}{endpoint}"`, headers are the stored bearer header,
and `timeout=30.0` is passed explicitly to httpx. -/
def LinkerAPIClient.make_request (c : LinkerAPIClient) (method endpoint : String)
    (params : List (String × PyVal)) (json_data : Option (List (String × JVal))) :
    HttpRequest :=
  { method := method
    url := c.base_url ++ endpoint
    params := params
    json := json_data
    headers := c.headers
    timeout := some 30 }

/-- The response handling of `LinkerAPIClient._make_request`:
`response.raise_for_status()` and then return the response. -/
def LinkerAPIClient.make_request_result (r : HttpResponse) :
    Except HTTPStatusError HttpResponse :=
  raise_for_status r

/-- `DiscordAccountSchema.model_dump()` as a one-level JSON object. -/
def DiscordAccountSchema.model_dump (d : DiscordAccountSchema) :
    List (String × PyVal) :=
  [("id", .s d.id), ("username", .s d.username), ("avatar", .s d.avatar)]

/-- The request issued by `LinkerAPIClient.flow_start`: POST `/v1/start`
with body `{"discord": {"id": ..., "username": ..., "avatar": ...}}`;
`discord_id` is a `str`. -/
def LinkerAPIClient.flow_start_request (c : LinkerAPIClient)
    (discord_id discord_username discord_avatar : String) : HttpRequest :=
  let discord_data : DiscordAccountSchema :=
    ⟨discord_id, discord_username, discord_avatar⟩
  c.make_request "POST" "/v1/start" []
    (some [("discord", .obj discord_data.model_dump)])

/-- The request issued by `LinkerAPIClient.flow_recheck`: POST
`/v1/recheck`, same body shape as `flow_start`; `discord_id` is a `str`. -/
def LinkerAPIClient.flow_recheck_request (c : LinkerAPIClient)
    (discord_id discord_username discord_avatar : String) : HttpRequest :=
  let discord_data : DiscordAccountSchema :=
    ⟨discord_id, discord_username, discord_avatar⟩
  c.make_request "POST" "/v1/recheck" []
    (some [("discord", .obj discord_data.model_dump)])

/-- The request issued by `LinkerAPIClient.account_list`: POST `/v1/list`
with body `{"discord_ids": [...]}`, the ids being `str`s. -/
def LinkerAPIClient.account_list_request (c : LinkerAPIClient)
    (discord_ids : List String) : HttpRequest :=
  c.make_request "POST" "/v1/list" []
    (some [("discord_ids", .arr (discord_ids.map PyVal.s))])

/-- The request issued by `LinkerAPIClient.unlink_account`: PATCH
`/v1/unlink` with query parameters `discord_id` and `wikidot_id`; both
parameters are declared `int` in the source. -/
def LinkerAPIClient.unlink_account_request (c : LinkerAPIClient)
    (discord_id wikidot_id : Int) : HttpRequest :=
  c.make_request "PATCH" "/v1/unlink"
    [("discord_id", .i discord_id), ("wikidot_id", .i wikidot_id)] none

/-- The request issued by `LinkerAPIClient.relink_account`: PATCH
`/v1/relink` with query parameters `discord_id` and `wikidot_id`; both
parameters are declared `int` in the source. -/
def LinkerAPIClient.relink_account_request (c : LinkerAPIClient)
    (discord_id wikidot_id : Int) : HttpRequest :=
  c.make_request "PATCH" "/v1/relink"
    [("discord_id", .i discord_id), ("wikidot_id", .i wikidot_id)] none

/-! ### `src/scp_jp/api/member_management.py` -/

/-- `PermissionLevel(IntEnum)`. -/
inductive PermissionLevel where
  | VISITOR
  | CONTRIBUTOR
  | MODERATOR
  | ADMIN
  | SYSTEM_ADMIN
deriving DecidableEq

/-- The integer value of each `PermissionLevel` member, from the source. -/
def PermissionLevel.value : PermissionLevel → Nat
  | .VISITOR => 10
  | .CONTRIBUTOR => 20
  | .MODERATOR => 30
  | .ADMIN => 40
  | .SYSTEM_ADMIN => 50

/-- The state stored by `MemberManagementAPIClient.__init__`. -/
structure MemberManagementAPIClient where
  base_url : String
  api_key : String
  headers : List (String × String)
deriving DecidableEq

/-- `MemberManagementAPIClient.__init__`: strips trailing `/` from
`base_url` and builds the bearer-token header. -/
def MemberManagementAPIClient.init (base_url api_key : String) :
    MemberManagementAPIClient :=
  { base_url := rstrip base_url '/'
    api_key := api_key
    headers := [("Authorization", "Bearer " ++ api_key)] }

/-- The request assembled by `MemberManagementAPIClient._make_request`:
URL is `f"{self.base_url}{endpoint}"` and `timeout=30.0` is passed
explicitly to httpx. -/
def MemberManagementAPIClient.make_request (c : MemberManagementAPIClient)
    (method endpoint : String) (params : List (String × PyVal))
    (json_data : Option (List (String × JVal))) : HttpRequest :=
  { method := method
    url := c.base_url ++ endpoint
    params := params
    json := json_data
    headers := c.headers
    timeout := some 30 }

/-- The response handling of `MemberManagementAPIClient._make_request`:
`response.raise_for_status()` and then return the response. -/
def MemberManagementAPIClient.make_request_result (r : HttpResponse) :
    Except HTTPStatusError HttpResponse :=
  raise_for_status r

/-- The response handling of
`MemberManagementAPIClient.change_site_member_privilege`: the body runs
`_make_request` and returns `response.json()`; the
`except httpx.HTTPStatusError` clause only re-raises. -/
def change_site_member_privilege_result (r : HttpResponse) :
    Except HTTPStatusError (List (String × JVal)) :=
  Except.tryCatch
    (do
      let response ← MemberManagementAPIClient.make_request_result r
      pure response.json)
    (fun e => .error e)

/-- `UserUpdate` pydantic model together with its `model_fields_set`:
pydantic records every field assigned after construction so that
`model_dump(exclude_unset=True)` can emit exactly the assigned fields. -/
structure UserUpdate where
  name : Option String
  unix_name : Option String
  avatar_url : Option String
  is_deleted : Option Bool
  permission_level : Option PermissionLevel
  fields_set : List String
deriving DecidableEq

/-- `UserUpdate()`: all fields default to `None` and no field is set. -/
def UserUpdate.empty : UserUpdate := ⟨none, none, none, none, none, []⟩

def UserUpdate.set_name (u : UserUpdate) (v : String) : UserUpdate :=
  { u with name := some v, fields_set := u.fields_set ++ ["name"] }

def UserUpdate.set_unix_name (u : UserUpdate) (v : String) : UserUpdate :=
  { u with unix_name := some v, fields_set := u.fields_set ++ ["unix_name"] }

def UserUpdate.set_avatar_url (u : UserUpdate) (v : String) : UserUpdate :=
  { u with avatar_url := some v, fields_set := u.fields_set ++ ["avatar_url"] }

def UserUpdate.set_is_deleted (u : UserUpdate) (v : Bool) : UserUpdate :=
  { u with is_deleted := some v, fields_set := u.fields_set ++ ["is_deleted"] }

def UserUpdate.set_permission_level (u : UserUpdate) (v : PermissionLevel) :
    UserUpdate :=
  { u with permission_level := some v, fields_set := u.fields_set ++ ["permission_level"] }

/-- Dump one field when it belongs to `model_fields_set`. -/
def dumpIfSet (k : String) (set : List String) (v : Option PyVal) :
    List (String × JVal) :=
  if k ∈ set then [(k, .prim (v.getD .null))] else []

/-- `UserUpdate.model_dump(exclude_unset=True)`: the fields recorded in
`model_fields_set`, in declaration order (`HttpUrl` serialises back to
its string, the `IntEnum` to its integer value). -/
def UserUpdate.model_dump_exclude_unset (u : UserUpdate) :
    List (String × JVal) :=
  dumpIfSet "name" u.fields_set (u.name.map .s) ++
  dumpIfSet "unix_name" u.fields_set (u.unix_name.map .s) ++
  dumpIfSet "avatar_url" u.fields_set (u.avatar_url.map .s) ++
  dumpIfSet "is_deleted" u.fields_set (u.is_deleted.map .b) ++
  dumpIfSet "permission_level" u.fields_set
    (u.permission_level.map fun l => .i l.value)

/-- The `UserUpdate` value built by `MemberManagementAPIClient.update_user`:
`UserUpdate()` followed by one conditional assignment per non-`None`
argument. -/
def update_user_data (name unix_name avatar_url : Option String)
    (is_deleted : Option Bool) (permission_level : Option PermissionLevel) :
    UserUpdate :=
  let user_data := UserUpdate.empty
  let user_data := match name with
    | some v => user_data.set_name v
    | none => user_data
  let user_data := match unix_name with
    | some v => user_data.set_unix_name v
    | none => user_data
  let user_data := match avatar_url with
    | some v => user_data.set_avatar_url v
    | none => user_data
  let user_data := match is_deleted with
    | some v => user_data.set_is_deleted v
    | none => user_data
  let user_data := match permission_level with
    | some v => user_data.set_permission_level v
    | none => user_data
  user_data

/-- The request issued by `MemberManagementAPIClient.update_user`: PATCH
`/v1/users/{user_id}` with body `user_data.model_dump(exclude_unset=True)`. -/
def MemberManagementAPIClient.update_user_request (c : MemberManagementAPIClient)
    (user_id : Int) (name unix_name avatar_url : Option String)
    (is_deleted : Option Bool) (permission_level : Option PermissionLevel) :
    HttpRequest :=
  c.make_request "PATCH" ("/v1/users/" ++ toString user_id) []
    (some (update_user_data name unix_name avatar_url is_deleted
      permission_level).model_dump_exclude_unset)

/-! ### Permission resolution (spec §4.4)

Modelled from the spec: the effective-permission computation runs inside
the member-management service, which is not part of this repository; the
sources only declare the `PermissionLevel` enum and the `SiteMember`
schema with its `site_permission_level : Optional[PermissionLevel]` and
`effective_permission_level : PermissionLevel` fields. Spec §3/§4.4:
"effective level = override if present else global level" and
`has_permission = effective_level >= threshold` under the enum's total
order. -/

/-- Modelled from the spec: `effective_level(user) = user.site_override
if present else user.global_level` (spec §4.4); the computation itself
lives in the member-management service, outside this repository. -/
def effective_level (global_level : PermissionLevel)
    (site_override : Option PermissionLevel) : PermissionLevel :=
  match site_override with
  | some l => l
  | none => global_level

/-- Modelled from the spec: `has_permission(user, site, threshold) :=
effective_level(user) >= threshold` under the total order given by the
enum's integer values (spec §4.4). -/
def has_permission (global_level : PermissionLevel)
    (site_override : Option PermissionLevel) (threshold : PermissionLevel) :
    Bool :=
  decide (threshold.value ≤ (effective_level global_level site_override).value)

/-! ### Spec-side definitions used for refinement comparisons -/

/-- Modelled from the spec (§4.1): `derive_challenge(v, "S256")` is the
base64url encoding, without padding, of the SHA-256 digest of the
verifier's UTF-8 bytes. -/
def derive_challenge_S256_spec (v : String) : String :=
  b64urlNoPad (sha256 (utf8Encode v))

/-- One `key=value` query pair. -/
def render_param (p : String × String) : String := p.1 ++ "=" ++ p.2

/-- Render a query-parameter list as `?k=v&k=v&...` appended to a path. -/
def render_query : List (String × String) → String
  | [] => ""
  | p :: rest =>
      "?" ++ render_param p ++
        (rest.map fun q => "&" ++ render_param q).foldl (· ++ ·) ""

/-- The Python type of the value a request sends for query parameter `k`. -/
def param_type (req : HttpRequest) (k : String) : Option PyType :=
  (req.params.lookup k).map pyTypeOf

/-- The Python type of field `k` of the `discord` object inside a request
body, when present. -/
def body_discord_field_type (req : HttpRequest) (k : String) : Option PyType :=
  match req.json with
  | some fields =>
    match fields.lookup "discord" with
    | some (.obj ds) => (ds.lookup k).map pyTypeOf
    | _ => none
  | none => none

/-- Spec-side rendering of an optional body attribute: one entry when the
parameter was supplied, no entry at all when it was `None`. -/
def optEntry (k : String) (v : Option PyVal) : List (String × JVal) :=
  match v with
  | some x => [(k, .prim x)]
  | none => []

/-! ## Supporting lemmas -/

/-- No character of the url-safe base64 alphabet is the padding character. -/
theorem b64urlAlphabet_no_pad : ∀ c ∈ b64urlAlphabet, c ≠ '=' := by decide

/-- `b64Char` never produces the padding character. -/
theorem b64Char_ne_pad (n : Nat) : b64Char n ≠ '=' := by
  unfold b64Char
  rcases h : b64urlAlphabet[n]? with _ | c
  · simp [List.getD, h]
  · have hm : c ∈ b64urlAlphabet := List.getElem?_mem h
    simp [List.getD, h]
    exact b64urlAlphabet_no_pad c hm

/-- A nonempty byte list has a nonempty unpadded encoding. -/
theorem b64CharsNoPad_ne_nil (a : Nat) (l : List Nat) :
    b64CharsNoPad (a :: l) ≠ [] := by
  match l with
  | [] => simp [b64CharsNoPad]
  | [b] => simp [b64CharsNoPad]
  | b :: c :: rest => simp [b64CharsNoPad]

/-- Dropping padding from the reversed padded encoding yields the reversed
unpadded encoding. -/
theorem dropWhile_pad_b64Chars : ∀ l : List Nat,
    (b64Chars l).reverse.dropWhile (· = '=') = (b64CharsNoPad l).reverse
  | [] => by simp [b64Chars, b64CharsNoPad]
  | [a] => by
      simp [b64Chars, b64CharsNoPad, List.dropWhile_cons, b64Char_ne_pad]
  | [a, b] => by
      simp [b64Chars, b64CharsNoPad, List.dropWhile_cons, b64Char_ne_pad]
  | [a, b, c] => by
      simp [b64Chars, b64CharsNoPad, List.dropWhile_cons, b64Char_ne_pad]
  | a :: b :: c :: d :: rest => by
      have ih := dropWhile_pad_b64Chars (d :: rest)
      have h4 : b64Chars (a :: b :: c :: d :: rest) =
          [b64Char (a / 4), b64Char (a % 4 * 16 + b / 16),
           b64Char (b % 16 * 4 + c / 64), b64Char (c % 64)] ++
            b64Chars (d :: rest) := by
        simp [b64Chars]
      have h4' : b64CharsNoPad (a :: b :: c :: d :: rest) =
          [b64Char (a / 4), b64Char (a % 4 * 16 + b / 16),
           b64Char (b % 16 * 4 + c / 64), b64Char (c % 64)] ++
            b64CharsNoPad (d :: rest) := by
        simp [b64CharsNoPad]
      have hne : (b64CharsNoPad (d :: rest)).reverse ≠ [] := by
        simp [b64CharsNoPad_ne_nil d rest]
      rw [h4, h4', List.reverse_append, List.dropWhile_append, ih]
      simp [List.isEmpty_iff, hne, List.dropWhile_cons, b64Char_ne_pad]

/-- Stripping all trailing `=` from the padded url-safe base64 encoding
yields exactly the unpadded base64url encoding. -/
theorem rstrip_b64Chars (l : List Nat) :
    rstripList '=' (b64Chars l) = b64CharsNoPad l := by
  unfold rstripList
  rw [dropWhile_pad_b64Chars, List.reverse_reverse]

/-! ## Claim theorems -/

/-- Claim C1: for every string code_verifier `v`,
`create_code_challenge(v, "S256")` succeeds and equals the base64url
encoding of the SHA-256 digest of `v`'s UTF-8 bytes with all trailing
`=` padding removed (`derive_challenge_S256_spec`); determinism is
immediate because the result is a pure function of `v`. -/
theorem claim_C1 (v : String) :
    create_code_challenge v "S256" = .ok (derive_challenge_S256_spec v) := by
  simp [create_code_challenge, derive_challenge_S256_spec, rstrip,
    urlsafe_b64encode, b64urlNoPad, rstrip_b64Chars]

/-- RFC 7636 appendix-style test vector: the S256 challenge of the
verifier `"abc"` matches the value computed by the Python stack. -/
theorem create_code_challenge_test_vector :
    create_code_challenge "abc" "S256" =
      .ok "ungWv48Bz-pBQUDeXa4iI7ADYaOWF3qctBD_YfIAFa0" := by rfl

/-- Claim C2: `create_code_challenge(v, "plain")` returns `v` unchanged,
and any method other than `"plain"` and `"S256"` fails with the
`InvalidMethod` error and yields no challenge. -/
theorem claim_C2 :
    (∀ v : String, create_code_challenge v "plain" = .ok v) ∧
    (∀ (v m : String), m ≠ "plain" → m ≠ "S256" →
      create_code_challenge v m = .error .invalidMethod) := by
  constructor
  · intro v
    simp [create_code_challenge]
  · intro v m h1 h2
    simp [create_code_challenge, h1, h2]

/-- Witness for C2 at the concrete method `"S512"`. -/
theorem claim_C2_witness :
    create_code_challenge "verifier" "plain" = .ok "verifier" ∧
    create_code_challenge "verifier" "S512" = .error .invalidMethod :=
  ⟨claim_C2.1 "verifier", claim_C2.2 "verifier" "S512" (by decide) (by decide)⟩

/-- Counterexample to claim C3: the linker and member-management clients
pass `timeout=30.0` explicitly, but `WikidotIdPClient.get_user` calls
`httpx.post` with no timeout argument at all, so the token/user exchange
does not carry the same fixed explicit timeout. -/
theorem claim_C3_counterexample :
    (LinkerAPIClient.make_request (LinkerAPIClient.init "http://linker" "key")
      "GET" "/v1/auth" [] none).timeout = some 30 ∧
    (MemberManagementAPIClient.make_request
      (MemberManagementAPIClient.init "http://mm" "key")
      "GET" "/v1/sites/" [] none).timeout = some 30 ∧
    (get_user_request ⟨"http://idp", "cid", "secret", "http://cb"⟩
      "code" "verifier").timeout = none ∧
    (none : Option Nat) ≠ some 30 := by
  refine ⟨rfl, rfl, rfl, by decide⟩

/-- Claim C3 as amended: every request built by
`LinkerAPIClient._make_request` and
`MemberManagementAPIClient._make_request` carries the explicit fixed
timeout of 30 seconds, while `WikidotIdPClient.get_user` issues its POST
with no explicit timeout (the HTTP library's default applies). -/
theorem claim_C3_amended :
    (∀ (c : LinkerAPIClient) method endpoint params json_data,
      (c.make_request method endpoint params json_data).timeout = some 30) ∧
    (∀ (c : MemberManagementAPIClient) method endpoint params json_data,
      (c.make_request method endpoint params json_data).timeout = some 30) ∧
    (∀ (c : WikidotIdPClient) code code_verifier,
      (get_user_request c code code_verifier).timeout = none) :=
  ⟨fun _ _ _ _ _ => rfl, fun _ _ _ _ _ => rfl, fun _ _ _ => rfl⟩

/-- Claim C4: the effective permission level is the per-site override
when present and otherwise the global level — never the maximum of the
two (an override can lower access, witnessed by `ADMIN` overridden to
`VISITOR`) — the enum's integer values are strictly increasing in the
order `VISITOR < CONTRIBUTOR < MODERATOR < ADMIN < SYSTEM_ADMIN`, and
the meets-threshold check is `effective_level ≥ threshold` in that
order. -/
theorem claim_C4 :
    (∀ (g l : PermissionLevel), effective_level g (some l) = l) ∧
    (∀ g : PermissionLevel, effective_level g none = g) ∧
    (effective_level .ADMIN (some .VISITOR) = .VISITOR ∧
      effective_level .ADMIN (some .VISITOR) ≠ .ADMIN) ∧
    (PermissionLevel.VISITOR.value = 10 ∧
      PermissionLevel.CONTRIBUTOR.value = 20 ∧
      PermissionLevel.MODERATOR.value = 30 ∧
      PermissionLevel.ADMIN.value = 40 ∧
      PermissionLevel.SYSTEM_ADMIN.value = 50) ∧
    (∀ (g : PermissionLevel) (o : Option PermissionLevel)
        (t : PermissionLevel),
      has_permission g o t =
        decide (t.value ≤ (effective_level g o).value)) := by
  refine ⟨fun g l => rfl, fun g => rfl, by decide, by decide, fun g o t => rfl⟩

/-- Claim C5: for every method, challenge and state, the authorization
URL embeds exactly the parameters `response_type=code`, `client_id`,
`redirect_uri`, `scope=identify`, `state`, `code_challenge` and
`code_challenge_method` — with the client's configured values and the
supplied arguments — appended to the configured endpoint's `/authorize`
path. -/
theorem claim_C5 (c : WikidotIdPClient)
    (code_challenge_method code_challenge state : String) :
    get_authorization_url c code_challenge_method code_challenge state =
      c.endpoint ++ "/authorize" ++ render_query
        [("response_type", "code"),
         ("client_id", c.client_id),
         ("redirect_uri", c.redirect_uri),
         ("scope", "identify"),
         ("state", state),
         ("code_challenge", code_challenge),
         ("code_challenge_method", code_challenge_method)] := by
  simp only [get_authorization_url, render_query, render_param, List.map,
    List.foldl]
  apply String.ext
  simp only [String.data_append, List.append_assoc]
  rfl

/-- Claim C6: `get_user` sends a POST to `{endpoint}/user` whose body
contains exactly the keys `client_id`, `client_secret`, `code`,
`code_verifier`, `grant_type=authorization_code` and `redirect_uri`
(configuration values for the first two and the last), and on a
successful response builds `WikidotUserClass` from the payload's `name`,
`unix_name` and `id` fields. -/
theorem claim_C6 :
    (∀ (c : WikidotIdPClient) (code code_verifier : String),
      (get_user_request c code code_verifier).method = "POST" ∧
      (get_user_request c code code_verifier).url = c.endpoint ++ "/user" ∧
      (get_user_request c code code_verifier).json = some
        [("client_id", .prim (.s c.client_id)),
         ("client_secret", .prim (.s c.client_secret)),
         ("code", .prim (.s code)),
         ("code_verifier", .prim (.s code_verifier)),
         ("grant_type", .prim (.s "authorization_code")),
         ("redirect_uri", .prim (.s c.redirect_uri))]) ∧
    (∀ (r : HttpResponse) (name unix_name : String) (id : Int),
      is_success r.status = true →
      r.json.lookup "name" = some (.prim (.s name)) →
      r.json.lookup "unix_name" = some (.prim (.s unix_name)) →
      r.json.lookup "id" = some (.prim (.i id)) →
      get_user_response r = .ok ⟨name, unix_name, id⟩) := by
  constructor
  · intro c code code_verifier
    exact ⟨rfl, rfl, rfl⟩
  · intro r name unix_name id hs h1 h2 h3
    simp [get_user_response, raise_for_status, hs, h1, h2, h3]

/-- Witness for C6 at a concrete configuration and a concrete 200
response. -/
theorem claim_C6_witness :
    get_user_response
      ⟨200, [("name", .prim (.s "alice")),
             ("unix_name", .prim (.s "alice-unix")),
             ("id", .prim (.i 7))]⟩ = .ok ⟨"alice", "alice-unix", 7⟩ ∧
    (get_user_request ⟨"http://idp", "cid", "secret", "http://cb"⟩
      "co" "ve").json = some
        [("client_id", .prim (.s "cid")),
         ("client_secret", .prim (.s "secret")),
         ("code", .prim (.s "co")),
         ("code_verifier", .prim (.s "ve")),
         ("grant_type", .prim (.s "authorization_code")),
         ("redirect_uri", .prim (.s "http://cb"))] :=
  ⟨claim_C6.2 ⟨200, [("name", .prim (.s "alice")),
             ("unix_name", .prim (.s "alice-unix")),
             ("id", .prim (.i 7))]⟩ "alice" "alice-unix" 7 rfl rfl rfl rfl,
   (claim_C6.1 ⟨"http://idp", "cid", "secret", "http://cb"⟩ "co" "ve").2.2⟩

/-- Counterexample to claim C7: `raise_for_status` in the underlying
HTTP library raises for every non-2xx status, so at a 301 redirect
response the client layer raises even though 301 is not in the
400/403/404/500 error class — the "raises exactly when the response
carries an error status code" equivalence fails. -/
theorem claim_C7_counterexample :
    LinkerAPIClient.make_request_result ⟨301, []⟩ = .error ⟨301⟩ ∧
    301 < 400 :=
  ⟨rfl, by decide⟩

/-- Claim C7 as amended: the client layer raises exactly when the
response is not successful (outside 2xx) — in particular it raises for
every 400/403/404/500-class response — returns the parsed response only
for successful statuses, and `change_site_member_privilege` re-raises
every upstream `HTTPStatusError` unchanged instead of swallowing it. -/
theorem claim_C7_amended :
    (∀ r : HttpResponse,
      (∃ e, LinkerAPIClient.make_request_result r = .error e) ↔
        ¬ (200 ≤ r.status ∧ r.status < 300)) ∧
    (∀ r : HttpResponse, 400 ≤ r.status → r.status < 600 →
      LinkerAPIClient.make_request_result r = .error ⟨r.status⟩ ∧
      MemberManagementAPIClient.make_request_result r = .error ⟨r.status⟩) ∧
    (∀ r r' : HttpResponse,
      LinkerAPIClient.make_request_result r = .ok r' →
      r' = r ∧ 200 ≤ r.status ∧ r.status < 300) ∧
    (∀ r r' : HttpResponse,
      MemberManagementAPIClient.make_request_result r = .ok r' →
      r' = r ∧ 200 ≤ r.status ∧ r.status < 300) ∧
    (∀ (r : HttpResponse) (e : HTTPStatusError),
      MemberManagementAPIClient.make_request_result r = .error e →
      change_site_member_privilege_result r = .error e) ∧
    (∀ (r : HttpResponse) (body : List (String × JVal)),
      change_site_member_privilege_result r = .ok body →
      (200 ≤ r.status ∧ r.status < 300) ∧ body = r.json) := by
  have key : ∀ r : HttpResponse,
      raise_for_status r =
        if 200 ≤ r.status ∧ r.status < 300 then .ok r
        else .error ⟨r.status⟩ := by
    intro r
    simp [raise_for_status, is_success]
  refine ⟨?_, ?_, ?_, ?_, ?_, ?_⟩
  · intro r
    rw [LinkerAPIClient.make_request_result, key r]
    split_ifs with h
    · simp [h]
    · simp [h]
  · intro r h4 h6
    have hns : ¬ (200 ≤ r.status ∧ r.status < 300) := by omega
    rw [LinkerAPIClient.make_request_result,
      MemberManagementAPIClient.make_request_result, key r]
    simp [hns]
  · intro r r' h
    rw [LinkerAPIClient.make_request_result, key r] at h
    split_ifs at h with hc
    · cases h
      exact ⟨rfl, hc⟩
  · intro r r' h
    rw [MemberManagementAPIClient.make_request_result, key r] at h
    split_ifs at h with hc
    · cases h
      exact ⟨rfl, hc⟩
  · intro r e h
    simp [change_site_member_privilege_result, Except.tryCatch, h]
  · intro r body h
    rw [change_site_member_privilege_result] at h
    rcases hr : MemberManagementAPIClient.make_request_result r with e | ok
    · simp [Except.tryCatch, hr] at h
    · simp [Except.tryCatch, hr] at h
      rw [MemberManagementAPIClient.make_request_result, key r] at hr
      split_ifs at hr with hc
      · cases hr
        exact ⟨hc, by simp [h]⟩

/-- Witness for C7 (amended) at a concrete 404 response. -/
theorem claim_C7_amended_witness :
    LinkerAPIClient.make_request_result ⟨404, []⟩ = .error ⟨404⟩ ∧
    MemberManagementAPIClient.make_request_result ⟨404, []⟩ = .error ⟨404⟩ ∧
    change_site_member_privilege_result ⟨404, []⟩ = .error ⟨404⟩ :=
  ⟨(claim_C7_amended.2.1 ⟨404, []⟩ (by decide) (by decide)).1,
   (claim_C7_amended.2.1 ⟨404, []⟩ (by decide) (by decide)).2,
   claim_C7_amended.2.2.2.2.1 ⟨404, []⟩ ⟨404⟩ rfl⟩

/-- Counterexample to claim C8: `unlink_account` (and `relink_account`)
send `discord_id` as an `int`, while `DiscordAccountSchema.id` — the
type used by `flow_start` — is a `str`; the unlink/relink identifier is
a different type, not the opaque platform-issued string. -/
theorem claim_C8_counterexample :
    param_type
      ((LinkerAPIClient.init "http://linker" "key").unlink_account_request 42 7)
      "discord_id" = some PyType.int ∧
    param_type
      ((LinkerAPIClient.init "http://linker" "key").relink_account_request 42 7)
      "discord_id" = some PyType.int ∧
    body_discord_field_type
      ((LinkerAPIClient.init "http://linker" "key").flow_start_request
        "42" "alice" "a.png") "id" = some PyType.str ∧
    PyType.int ≠ PyType.str :=
  ⟨rfl, rfl, rfl, by decide⟩

/-- Claim C8 as amended: `unlink_account` and `relink_account` identify
the link by an integer `discord_id` (and integer `wikidot_id`), unlike
`DiscordAccountSchema.id`, `flow_start`, `flow_recheck` and
`account_list`, which all carry the Discord identifier as a string. -/
theorem claim_C8_amended :
    (∀ (c : LinkerAPIClient) (discord_id wikidot_id : Int),
      param_type (c.unlink_account_request discord_id wikidot_id)
        "discord_id" = some PyType.int ∧
      param_type (c.relink_account_request discord_id wikidot_id)
        "discord_id" = some PyType.int) ∧
    (∀ d : DiscordAccountSchema,
      (d.model_dump.lookup "id").map pyTypeOf = some PyType.str) ∧
    (∀ (c : LinkerAPIClient) (id u a : String),
      body_discord_field_type (c.flow_start_request id u a) "id" =
        some PyType.str ∧
      body_discord_field_type (c.flow_recheck_request id u a) "id" =
        some PyType.str) ∧
    (∀ (c : LinkerAPIClient) (discord_ids : List String),
      (c.account_list_request discord_ids).json =
        some [("discord_ids", .arr (discord_ids.map PyVal.s))]) :=
  ⟨fun _ _ _ => ⟨rfl, rfl⟩, fun _ => rfl, fun _ _ _ _ => ⟨rfl, rfl⟩,
   fun _ _ => rfl⟩

/-- `dropWhile` is idempotent. -/
theorem dropWhile_dropWhile (p : Char → Bool) (l : List Char) :
    (l.dropWhile p).dropWhile p = l.dropWhile p := by
  induction l with
  | nil => simp
  | cons a l ih =>
    by_cases h : p a
    · simp [List.dropWhile_cons, h, ih]
    · simp [List.dropWhile_cons, h]

theorem rstripList_idem (p : Char) (l : List Char) :
    rstripList p (rstripList p l) = rstripList p l := by
  unfold rstripList
  rw [List.reverse_reverse, dropWhile_dropWhile]

/-- Python's `rstrip` is idempotent. -/
theorem rstrip_idem (s : String) (p : Char) :
    rstrip (rstrip s p) p = rstrip s p := by
  unfold rstrip
  exact congrArg String.mk (rstripList_idem p s.data)

/-- Claim C9: constructing either client from a `base_url` with trailing
slashes yields exactly the client obtained from the slash-stripped
`base_url` — `__init__` normalises with `rstrip("/")`, which is
idempotent — so every request each pair of clients issues is identical,
URL included. -/
theorem claim_C9 :
    (∀ base_url api_key : String,
      LinkerAPIClient.init base_url api_key =
        LinkerAPIClient.init (rstrip base_url '/') api_key) ∧
    (∀ base_url api_key : String,
      MemberManagementAPIClient.init base_url api_key =
        MemberManagementAPIClient.init (rstrip base_url '/') api_key) ∧
    (∀ (base_url api_key method endpoint : String) params json_data,
      (LinkerAPIClient.init base_url api_key).make_request
          method endpoint params json_data =
        (LinkerAPIClient.init (rstrip base_url '/') api_key).make_request
          method endpoint params json_data) ∧
    (∀ (base_url api_key method endpoint : String) params json_data,
      (MemberManagementAPIClient.init base_url api_key).make_request
          method endpoint params json_data =
        (MemberManagementAPIClient.init (rstrip base_url '/') api_key).make_request
          method endpoint params json_data) := by
  have h1 : ∀ b k : String,
      LinkerAPIClient.init b k = LinkerAPIClient.init (rstrip b '/') k := by
    intro b k
    simp [LinkerAPIClient.init, rstrip_idem]
  have h2 : ∀ b k : String,
      MemberManagementAPIClient.init b k =
        MemberManagementAPIClient.init (rstrip b '/') k := by
    intro b k
    simp [MemberManagementAPIClient.init, rstrip_idem]
  refine ⟨h1, h2, ?_, ?_⟩
  · intro b k method endpoint params json_data
    rw [h1 b k]
  · intro b k method endpoint params json_data
    rw [h2 b k]

/-- Claim C10: the PATCH body built by `update_user` contains exactly
the attributes whose parameters were passed non-`None`; a `None`
parameter contributes no key at all, so unspecified attributes are not
sent. -/
theorem claim_C10 (name unix_name avatar_url : Option String)
    (is_deleted : Option Bool) (permission_level : Option PermissionLevel) :
    (update_user_data name unix_name avatar_url is_deleted
        permission_level).model_dump_exclude_unset =
      optEntry "name" (name.map .s) ++
      optEntry "unix_name" (unix_name.map .s) ++
      optEntry "avatar_url" (avatar_url.map .s) ++
      optEntry "is_deleted" (is_deleted.map .b) ++
      optEntry "permission_level" (permission_level.map fun l => .i l.value) ∧
    (∀ (c : MemberManagementAPIClient) (user_id : Int),
      (c.update_user_request user_id name unix_name avatar_url is_deleted
        permission_level).json =
        some (update_user_data name unix_name avatar_url is_deleted
          permission_level).model_dump_exclude_unset) := by
  constructor
  · rcases name with _ | n <;> rcases unix_name with _ | u <;>
      rcases avatar_url with _ | a <;> rcases is_deleted with _ | d <;>
      rcases permission_level with _ | p <;>
      simp [update_user_data, UserUpdate.empty, UserUpdate.set_name,
        UserUpdate.set_unix_name, UserUpdate.set_avatar_url,
        UserUpdate.set_is_deleted, UserUpdate.set_permission_level,
        UserUpdate.model_dump_exclude_unset, dumpIfSet, optEntry]
  · intro c user_id
    rfl
